import Mathlib

/-!
# Verification of the GENEA visualizer render worker

A shallow embedding of `celery-queue/tasks.py`: the BVH validator
(`validate_bvh_file`) and the render task (`render`), together with proofs
of the specified properties.

Conventions of the embedding:
* Python strings are Lean `String`s; the file content is modelled after the
  UTF-8 decode (the decode itself is assumed to have succeeded, which is a
  hypothesis of every claim that touches the file content).
* Python floats are modelled as exact rationals (`ℚ`, built with `mkRat`).
  Every numeric comparison settled here is decided identically by IEEE-754
  doubles and by exact rationals: the only nontrivial instance is
  `0.04166667` versus `1/24`, which differ by about `3.3e-9`, nine orders
  of magnitude above the double-precision unit in the last place near
  `0.04`, so the two doubles are distinct exactly as the rationals are.
* `raise TaskFailure(msg)` becomes a typed error value; exceptions such as
  `ValueError` that are not `TaskFailure` become a distinct "untyped error"
  outcome.
* String primitives (`split`, `strip`, `startswith`, `os.path.basename`)
  are implemented by structural recursion on the character list so that
  concrete runs reduce inside the kernel.
-/

set_option autoImplicit false

namespace Genea

/-! ## Python string primitives used by `tasks.py` -/

/-- The whitespace set of Python's `str.strip()` (no argument). -/
def isPySpace (c : Char) : Bool :=
  c = ' ' || c = '\t' || c = '\n' || c = '\r' || c = '\x0b' || c = '\x0c'

/-- Python `line.strip()`: remove leading and trailing whitespace. -/
def pyStrip (s : String) : String :=
  String.mk (((s.toList.dropWhile isPySpace).reverse.dropWhile isPySpace).reverse)

/-- Split a character list on a separator character, keeping empty fields,
like Python `str.split` with an explicit separator. -/
def splitOnChar (sep : Char) : List Char → List (List Char)
  | [] => [[]]
  | c :: cs =>
    if c = sep then [] :: splitOnChar sep cs
    else
      match splitOnChar sep cs with
      | [] => [[c]]
      | h :: t => (c :: h) :: t

/-- Python `s.split("\n")`. -/
def pySplitLines (s : String) : List String :=
  (splitOnChar '\n' s.toList).map String.mk

/-- Python `s.split(" ")` (single-space separator, keeps empty fields). -/
def pySplitSpace (s : String) : List String :=
  (splitOnChar ' ' s.toList).map String.mk

/-- Python `s.startswith(p)` (on character lists). -/
def startsWithL : List Char → List Char → Bool
  | _, [] => true
  | [], _ :: _ => false
  | c :: cs, p :: ps => c = p && startsWithL cs ps

/-- Python `s.startswith(p)`. -/
def pyStartsWith (s p : String) : Bool := startsWithL s.toList p.toList

/-- Python `os.path.basename`: everything after the last `/`. -/
def pyBasename (s : String) : String :=
  ((splitOnChar '/' s.toList).map String.mk).getLastD ""

/-- Numeric value of a list of ASCII digits. -/
def digitsToNat (ds : List Char) : Nat :=
  ds.foldl (fun n c => 10 * n + (c.toNat - 48)) 0

/-- A nonempty all-digit char list, or failure. -/
def digitsVal : List Char → Option Nat
  | [] => none
  | cs => if cs.all Char.isDigit then some (digitsToNat cs) else none

/-- Python `int(s)` on the grammar `ws sign? digits+ ws`.  Python's
underscore digit grouping and non-ASCII digits are outside the modelled
grammar; no claim exercises them. -/
def pyParseInt (s : String) : Option Int :=
  match (pyStrip s).toList with
  | '+' :: rest => (digitsVal rest).map Int.ofNat
  | '-' :: rest => (digitsVal rest).map (fun n => -(Int.ofNat n))
  | rest => (digitsVal rest).map Int.ofNat

/-- Leading digit span of a char list. -/
def spanDigits (cs : List Char) : List Char × List Char :=
  (cs.takeWhile Char.isDigit, cs.dropWhile Char.isDigit)

/-- Mantissa of a Python float literal: `digits+ ('.' digits*)? | '.' digits+`.
Returns the integer formed by all mantissa digits, the number of fractional
digits, and the unconsumed remainder. -/
def parseMantissa (cs : List Char) : Option (Nat × Nat × List Char) :=
  let ip := spanDigits cs
  match ip.2 with
  | '.' :: rest2 =>
    let fp := spanDigits rest2
    if ip.1.isEmpty && fp.1.isEmpty then none
    else some (digitsToNat (ip.1 ++ fp.1), fp.1.length, fp.2)
  | rest => if ip.1.isEmpty then none else some (digitsToNat ip.1, 0, rest)

/-- Exponent part after the `e`/`E`: `sign? digits+`. -/
def parseExponent (cs : List Char) : Option (Int × List Char) :=
  match cs with
  | '+' :: r => let d := spanDigits r; if d.1.isEmpty then none else some (Int.ofNat (digitsToNat d.1), d.2)
  | '-' :: r => let d := spanDigits r; if d.1.isEmpty then none else some (-(Int.ofNat (digitsToNat d.1) : Int), d.2)
  | r => let d := spanDigits r; if d.1.isEmpty then none else some (Int.ofNat (digitsToNat d.1), d.2)

/-- Assemble the exact rational value `sign * digits / 10^frac * 10^exp`. -/
def floatVal (neg : Bool) (digits : Nat) (frac : Nat) (exp : Int) : ℚ :=
  let sign : Int := if neg then -1 else 1
  if exp ≥ 0 then mkRat (sign * digits * 10 ^ exp.toNat) (10 ^ frac)
  else mkRat (sign * digits) (10 ^ frac * 10 ^ (-exp).toNat)

/-- Python `float(s)` on the grammar
`ws sign? mantissa ([eE] sign? digits+)? ws`, with the exact rational value.
`inf`/`nan` and underscore grouping are outside the modelled grammar; no
claim exercises them. -/
def pyParseFloat (s : String) : Option ℚ :=
  let signed : Bool × List Char :=
    match (pyStrip s).toList with
    | '+' :: r => (false, r)
    | '-' :: r => (true, r)
    | r => (false, r)
  match parseMantissa signed.2 with
  | none => none
  | some (digits, frac, rest) =>
    match rest with
    | [] => some (floatVal signed.1 digits frac 0)
    | 'e' :: r =>
      match parseExponent r with
      | some (e, []) => some (floatVal signed.1 digits frac e)
      | _ => none
    | 'E' :: r =>
      match parseExponent r with
      | some (e, []) => some (floatVal signed.1 digits frac e)
      | _ => none
    | _ => none

/-- Python `int(x)` on a float value: truncation toward zero. -/
def ratTrunc (q : ℚ) : Int :=
  if q.num ≥ 0 then Int.ofNat (q.num.toNat / q.den) else -(Int.ofNat ((-q.num).toNat / q.den))

/-- Reciprocal (`1.0 / x`) on exact rationals, avoiding the irreducible field operations. -/
def ratOneDiv (q : ℚ) : ℚ :=
  if q.num ≥ 0 then mkRat (Int.ofNat q.den) q.num.toNat
  else mkRat (-(Int.ofNat q.den)) (-q.num).toNat

/-- Python `f"{o}"` for a variable holding either `None` or an `int`. -/
def pyOptIntStr : Option Int → String
  | none => "None"
  | some n => toString n

/-! ## The validator (`validate_bvh_file`) -/

/-- The configuration read from the environment at the top of
`validate_bvh_file`: `MAX_NUMBER_FRAMES` (with `-1` as the unlimited
sentinel) and `RENDER_FPS`. -/
structure Limits where
  maxFrames : Int
  fps : ℚ
deriving DecidableEq

/-- Derived frame time: `FRAME_TIME = 1.0 / float(os.environ["RENDER_FPS"])`. -/
def Limits.frameTime (l : Limits) : ℚ := ratOneDiv l.fps

/-- The `counter` loop of `validate_bvh_file`: scan the lines of the file;
a line stripping to `"MOTION"` arms the counter at `-2`; while armed, every
non-empty (after strip) line increments it.  `none` is Python's `None`
(counter never armed). -/
def recountFrames (content : String) : Option Int :=
  (pySplitLines content).foldl
    (fun c line =>
      let c1 := if c.isSome && pyStrip line ≠ "" then c.map (· + 1) else c
      if pyStrip line = "MOTION" then some (-2) else c1)
    none

/-- Modelled from the spec: the structural BVH reader (the third-party
`bvh.Bvh` class used by `tasks.py` as `mocap`, whose code is not part of
this repository).  Per spec §3/§4.1 it extracts the `ParsedHeader`
`{ declaredFrameCount, declaredFrameTime }` from the two header lines
(`"Frames: N"` and `"Frame Time: T"`) of the MOTION section.  The lines of
the MOTION section, i.e. the lines after the first line stripping to
`"MOTION"`. -/
def motionSection (content : String) : List String :=
  match (pySplitLines content).dropWhile (fun l => pyStrip l ≠ "MOTION") with
  | [] => []
  | _ :: rest => rest

/-- Modelled from the spec: the declared frame count of a header line, read
from a line of the form `"Frames: N"`. -/
def parseFramesLine (line : String) : Option Int :=
  let l := pyStrip line
  if pyStartsWith l "Frames:" then pyParseInt (String.mk (l.toList.drop 7))
  else none

/-- Modelled from the spec: the declared frame time of a header line, read
from a line of the form `"Frame Time: T"`. -/
def parseFrameTimeLine (line : String) : Option ℚ :=
  let l := pyStrip line
  if pyStartsWith l "Frame Time:" then pyParseFloat (String.mk (l.toList.drop 11))
  else none

/-- Modelled from the spec: `mocap.nframes` and `mocap.frame_time`, the
declared frame count and frame time extracted by the structural BVH reader
from the MOTION section's header fields.  Per the spec §4.1 edge case, a
file on which the structural parse cannot find the header fields fails
validation with a typed failure rather than crashing. -/
def parseHeader (content : String) : Option (Int × ℚ) :=
  let sect := motionSection content
  match sect.findSome? parseFramesLine, sect.findSome? parseFrameTimeLine with
  | some n, some t => some (n, t)
  | _, _ => none

/-- The distinct typed failures raised by `validate_bvh_file` (each one is
a `raise TaskFailure(...)` site, except `headerMissing`, which is the
spec-modelled typed failure of the structural parse step). -/
inductive ValidationError where
  | headerMissing
  | frameCountMismatch (counter : Option Int) (nframes : Int)
  | tooManyFrames (nframes maxFrames : Int)
  | frameTimeMismatch (frameTime required : ℚ)
deriving DecidableEq

/-- The human-readable `TaskFailure` message of each failure, mirroring the
f-strings in `validate_bvh_file`.  (The rendering of the two rational
frame times is not byte-faithful to Python's float `repr`; no claim
depends on it.) -/
def errMessage : ValidationError → String
  | .headerMissing =>
      "The structural BVH parse could not find the MOTION header fields"
  | .frameCountMismatch c n =>
      "The number of rows with motion data (" ++ pyOptIntStr c ++
        ") does not match the Frames field (" ++ toString n ++ ")"
  | .tooManyFrames n m =>
      "The supplied number of frames (" ++ toString n ++ ") is bigger than " ++ toString m
  | .frameTimeMismatch t r =>
      "The supplied frame time (" ++ toString t.num ++ "/" ++ toString t.den ++
        ") differs from the required " ++ toString r.num ++ "/" ++ toString r.den

/-- The result of `validate_bvh_file`: either a normal return or a raised
`TaskFailure` (`fail`). -/
inductive VResult where
  | ok
  | fail (e : ValidationError)
deriving DecidableEq

/-- The body of `validate_bvh_file`, after the UTF-8 decode: recount the motion rows,
then run the three checks in source order (frame-count mismatch, frame
count over the limit unless `MAX_NUMBER_FRAMES == -1`, exact frame-time
equality). -/
def validate (content : String) (limits : Limits) : VResult :=
  match parseHeader content with
  | none => .fail .headerMissing
  | some (nframes, frameTime) =>
    let counter := recountFrames content
    if counter ≠ some nframes then
      .fail (.frameCountMismatch counter nframes)
    else if limits.maxFrames ≠ -1 ∧ nframes > limits.maxFrames then
      .fail (.tooManyFrames nframes limits.maxFrames)
    else if frameTime ≠ limits.frameTime then
      .fail (.frameTimeMismatch frameTime limits.frameTime)
    else
      .ok

/-! ## The render task (`render`)

The task body after the PROCESSING state update: fetch the file, validate,
spawn the renderer, consume its stdout line by line, and either upload the
produced artifact, let a `ValueError` escape, or check the recorded return
code once the stream is exhausted. -/

/-- What one decoded, stripped stdout line does inside the `for` loop of
`render`, following the `if/elif` chain of the source:
* `"total_frames "`-prefixed: `total = int(float(parts[1]))` after a
  two-element unpack — a failed unpack or float conversion is a raised
  `ValueError` (`errored`);
* `"Append frame "`-prefixed: `current_frame = int(parts[-1])` — a failed
  int conversion is a raised `ValueError`;
* `"output_file"`-prefixed: a two-element unpack giving the artifact path
  (a failed unpack is a raised `ValueError`), and the task returns;
* anything else is ignored. -/
inductive LineEvent where
  | setTotal (n : Int)
  | setCurrent (n : Int)
  | outputFile (path : String)
  | ignored
  | errored (msg : String)
deriving DecidableEq

/-- The `if/elif` chain of the stdout loop on one raw line. -/
def classifyLine (rawLine : String) : LineEvent :=
  let line := pyStrip rawLine
  if pyStartsWith line "total_frames " then
    match pySplitSpace line with
    | [_, t] =>
      match pyParseFloat t with
      | some q => .setTotal (ratTrunc q)
      | none => .errored ("ValueError: could not convert string to float: " ++ t)
    | _ => .errored "ValueError: values to unpack"
  else if pyStartsWith line "Append frame " then
    let tok := (pySplitSpace line).getLastD ""
    match pyParseInt tok with
    | some n => .setCurrent n
    | none => .errored ("ValueError: invalid literal for int() with base 10: " ++ tok)
  else if pyStartsWith line "output_file" then
    match pySplitSpace line with
    | [_, fname] => .outputFile fname
    | _ => .errored "ValueError: values to unpack"
  else .ignored

/-- The effect of a non-terminating line event on the
`(total, current_frame)` pair (`none` is Python's `None`). -/
def applyEvent (tc : Option Int × Option Int) : LineEvent → Option Int × Option Int
  | .setTotal n => (some n, tc.2)
  | .setCurrent n => (tc.1, some n)
  | _ => tc

/-- Externally observable actions of one task invocation, in order. -/
inductive Event where
  | stateProcessing
  | fetched (url auth : String)
  | spawned
  | stateRendering (current total : Int)
  | uploaded (url field fileName auth : String)
deriving DecidableEq

/-- The `if total and current_frame:` state update at the bottom of the
loop body: Python truthiness, so an update is emitted only when both
values are set *and* nonzero. -/
def emitUpdate (tc : Option Int × Option Int) : List Event :=
  match tc with
  | (some t, some c) => if t ≠ 0 ∧ c ≠ 0 then [Event.stateRendering c t] else []
  | _ => []

/-- How the stdout loop ended: stream exhausted (with the final
`(total, current_frame)` pair), an `output_file` return, or an escaped
`ValueError`. -/
inductive LoopExit where
  | exhausted (tc : Option Int × Option Int)
  | returned (path : String)
  | errored (msg : String)
deriving DecidableEq

/-- Accumulated loop observation: emitted events plus how it ended. -/
structure LoopOut where
  events : List Event
  exit : LoopExit
deriving DecidableEq

/-- The `for line in process.stdout:` loop. -/
def runLoop (tc : Option Int × Option Int) : List String → LoopOut
  | [] => ⟨[], .exhausted tc⟩
  | l :: ls =>
    match classifyLine l with
    | .outputFile path => ⟨[], .returned path⟩
    | .errored m => ⟨[], .errored m⟩
    | ev =>
      let tc1 := applyEvent tc ev
      let out := runLoop tc1 ls
      ⟨emitUpdate tc1 ++ out.events, out.exit⟩

/-- One subprocess run as observed by the task: the decoded stdout lines,
the operating-system exit status of the child, and the captured stderr
text. -/
structure ProcRun where
  stdoutLines : List String
  exitCode : Int
  stderrText : String
deriving DecidableEq

/-- Value of `process.returncode` as readable at the post-loop check.  The
attribute is set only by `poll()`, `wait()` or `communicate()`; `render`
calls none of them (it only iterates `process.stdout` to exhaustion), so at
`if process.returncode != 0:` the attribute still holds `None`, whatever
the child's actual exit status was. -/
def recordedReturncode (_p : ProcRun) : Option Int := none

/-- The collaborators and configuration of one task invocation:
`API_SERVER`, `SYSTEM_TOKEN`, the validator limits, the GET body for a
given URI and the `/upload_video` POST response text for a given uploaded
file path. -/
structure Env where
  apiServer : String
  token : String
  limits : Limits
  fetchBody : String → String
  uploadBody : String → String

/-- The header dict `HEADERS`, holding `Authorization: Bearer` plus the system token. -/
def Env.auth (env : Env) : String := "Bearer " ++ env.token

/-- The terminal result of one task invocation. -/
inductive Outcome where
  | success (body : String)
  | taskFailure (msg : String)
  | untypedError (msg : String)
  | noResult
deriving DecidableEq

/-- The trace and result of one task invocation. -/
structure RenderRun where
  trace : List Event
  outcome : Outcome
deriving DecidableEq

/-- The body of the `render` task: PROCESSING update, authenticated GET,
validation (a `TaskFailure` stops the task before any subprocess exists),
then the subprocess and its stdout loop; an `output_file` return uploads
the artifact under multipart field `"file"` with its base filename and the
same authorization header and returns the response text; an escaped
`ValueError` is an untyped error; an exhausted stream checks the recorded
return code (`None != 0` is true in Python, so this path raises
`TaskFailure(process.stderr.read())`). -/
def render (env : Env) (uri : String) (proc : ProcRun) : RenderRun :=
  let ev0 := [Event.stateProcessing, Event.fetched (env.apiServer ++ uri) env.auth]
  match validate (env.fetchBody uri) env.limits with
  | .fail e => ⟨ev0, .taskFailure (errMessage e)⟩
  | .ok =>
    let out := runLoop (none, none) proc.stdoutLines
    match out.exit with
    | .returned path =>
      ⟨ev0 ++ Event.spawned :: out.events ++
          [Event.uploaded (env.apiServer ++ "/upload_video") "file" (pyBasename path) env.auth],
        .success (env.uploadBody path)⟩
    | .errored m => ⟨ev0 ++ Event.spawned :: out.events, .untypedError m⟩
    | .exhausted _ =>
      ⟨ev0 ++ Event.spawned :: out.events,
        if recordedReturncode proc ≠ some 0 then .taskFailure proc.stderrText else .noResult⟩

/-- A line whose processing neither returns nor raises: the loop continues
with the next line. -/
def contLine (l : String) : Bool :=
  match classifyLine l with
  | .outputFile _ => false
  | .errored _ => false
  | _ => true

/-- The `(current, total)` payloads of the RENDERING progress updates in a
trace, in emission order. -/
def renderingPairs (evs : List Event) : List (Int × Int) :=
  evs.filterMap (fun e =>
    match e with
    | .stateRendering c t => some (c, t)
    | _ => none)

/-- Spec-side observation function (refinement target) for the progress
protocol, following §4.2 step 5 of the spec amended by Python truthiness:
after each processed line the latest `(total, current)` pair is observed,
and a `(current, total)` update is due exactly when both components are
set and nonzero; processing stops at the first line that returns or
raises. -/
def dueUpdates (tc : Option Int × Option Int) : List String → List (Int × Int)
  | [] => []
  | l :: ls =>
    match classifyLine l with
    | .outputFile _ => []
    | .errored _ => []
    | ev =>
      let tc1 := applyEvent tc ev
      (match tc1 with
       | (some t, some c) => if t ≠ 0 ∧ c ≠ 0 then [(c, t)] else []
       | _ => []) ++ dueUpdates tc1 ls

/-! ## Structural lemmas about the stdout loop -/

/-- The `(total, current_frame)` pair after a list of continuing lines. -/
def loopTC (tc : Option Int × Option Int) (lines : List String) : Option Int × Option Int :=
  lines.foldl (fun s l => applyEvent s (classifyLine l)) tc

theorem runLoop_nil (tc : Option Int × Option Int) :
    runLoop tc [] = ⟨[], .exhausted tc⟩ := rfl

theorem runLoop_cons_cont (tc : Option Int × Option Int) (l : String) (ls : List String)
    (h : contLine l = true) :
    runLoop tc (l :: ls) =
      ⟨emitUpdate (applyEvent tc (classifyLine l)) ++
          (runLoop (applyEvent tc (classifyLine l)) ls).events,
        (runLoop (applyEvent tc (classifyLine l)) ls).exit⟩ := by
  unfold contLine at h
  cases hc : classifyLine l <;> rw [hc] at h <;> simp_all [runLoop, hc, applyEvent]

theorem runLoop_cons_output (tc : Option Int × Option Int) (l path : String) (ls : List String)
    (h : classifyLine l = .outputFile path) :
    runLoop tc (l :: ls) = ⟨[], .returned path⟩ := by
  simp [runLoop, h]

theorem runLoop_cons_error (tc : Option Int × Option Int) (l m : String) (ls : List String)
    (h : classifyLine l = .errored m) :
    runLoop tc (l :: ls) = ⟨[], .errored m⟩ := by
  simp [runLoop, h]

theorem runLoop_append_cont (pre : List String) (h : ∀ x ∈ pre, contLine x = true)
    (tc : Option Int × Option Int) (rest : List String) :
    runLoop tc (pre ++ rest) =
      ⟨(runLoop tc pre).events ++ (runLoop (loopTC tc pre) rest).events,
        (runLoop (loopTC tc pre) rest).exit⟩ := by
  induction pre generalizing tc with
  | nil => simp [runLoop_nil, loopTC]
  | cons l pre ih =>
    have hl : contLine l = true := h l (List.mem_cons_self l pre)
    have hrest : ∀ x ∈ pre, contLine x = true := fun x hx => h x (List.mem_cons_of_mem l hx)
    rw [List.cons_append, runLoop_cons_cont _ _ _ hl, runLoop_cons_cont _ _ _ hl,
      ih hrest (applyEvent tc (classifyLine l))]
    simp [loopTC, List.foldl_cons]

theorem runLoop_exhausted (lines : List String) (h : ∀ x ∈ lines, contLine x = true)
    (tc : Option Int × Option Int) :
    (runLoop tc lines).exit = .exhausted (loopTC tc lines) := by
  have h2 := runLoop_append_cont lines h tc []
  rw [List.append_nil] at h2
  rw [h2, runLoop_nil]

theorem renderingPairs_append (a b : List Event) :
    renderingPairs (a ++ b) = renderingPairs a ++ renderingPairs b := by
  simp [renderingPairs, List.filterMap_append]

theorem renderingPairs_emitUpdate (tc : Option Int × Option Int) :
    renderingPairs (emitUpdate tc) =
      (match tc with
       | (some t, some c) => if t ≠ 0 ∧ c ≠ 0 then [(c, t)] else []
       | _ => []) := by
  rcases tc with ⟨_ | t, _ | c⟩
  · rfl
  · rfl
  · rfl
  · simp only [emitUpdate]
    split <;> simp [renderingPairs]

/-- The loop's emitted progress updates are exactly the due updates of the
spec-side observation function. -/
theorem runLoop_renderingPairs (lines : List String) (tc : Option Int × Option Int) :
    renderingPairs (runLoop tc lines).events = dueUpdates tc lines := by
  induction lines generalizing tc with
  | nil => simp [runLoop_nil, renderingPairs, dueUpdates]
  | cons l ls ih =>
    cases hc : classifyLine l with
    | outputFile path =>
      rw [runLoop_cons_output _ _ _ _ hc]
      simp [dueUpdates, hc, renderingPairs]
    | errored m =>
      rw [runLoop_cons_error _ _ _ _ hc]
      simp [dueUpdates, hc, renderingPairs]
    | setTotal n =>
      have hcont : contLine l = true := by simp [contLine, hc]
      rw [runLoop_cons_cont _ _ _ hcont, hc]
      simp only [dueUpdates, hc]
      rw [renderingPairs_append, renderingPairs_emitUpdate, ih]
    | setCurrent n =>
      have hcont : contLine l = true := by simp [contLine, hc]
      rw [runLoop_cons_cont _ _ _ hcont, hc]
      simp only [dueUpdates, hc]
      rw [renderingPairs_append, renderingPairs_emitUpdate, ih]
    | ignored =>
      have hcont : contLine l = true := by simp [contLine, hc]
      rw [runLoop_cons_cont _ _ _ hcont, hc]
      simp only [dueUpdates, hc]
      rw [renderingPairs_append, renderingPairs_emitUpdate, ih]

/-! ## Concrete fixtures -/

/-- Spec §8 end-to-end scenario 1 shape, for a configured 25 fps: declared
`Frames: 3`, `Frame Time: 0.04`, and exactly 3 non-blank motion rows. -/
def goodContent : String :=
  "HIERARCHY\nROOT x\nMOTION\nFrames: 3\nFrame Time: 0.04\n1 2 3\n4 5 6\n7 8 9\n"

/-- Spec §8 end-to-end scenario 2 shape: as `goodContent` but with only 2
motion rows. -/
def badCountContent : String :=
  "HIERARCHY\nROOT x\nMOTION\nFrames: 3\nFrame Time: 0.04\n1 2 3\n4 5 6\n"

/-- Spec §8 end-to-end scenario 1 verbatim: declared `Frames: 3`,
`Frame Time: 0.04166667` for a configured 24 fps, and 3 motion rows. -/
def content24 : String :=
  "HIERARCHY\nROOT x\nMOTION\nFrames: 3\nFrame Time: 0.04166667\n1 2 3\n4 5 6\n7 8 9\n"

/-- A file with no `MOTION` marker line at all. -/
def noMotionContent : String := "HIERARCHY\nROOT x\nFrames: 3\n1 2 3\n"

/-- Limits at 25 fps with unlimited frame count. -/
def baseLimits : Limits := ⟨-1, mkRat 25 1⟩

/-- An environment whose GET returns `goodContent` (validation passes). -/
def envOk : Env :=
  { apiServer := "http://api", token := "tok", limits := baseLimits,
    fetchBody := fun _ => goodContent, uploadBody := fun _ => "upload-response" }

/-- An environment whose GET returns `badCountContent` (validation fails). -/
def envBadCount : Env :=
  { apiServer := "http://api", token := "tok", limits := baseLimits,
    fetchBody := fun _ => badCountContent, uploadBody := fun _ => "upload-response" }

/-! ## Claims about the validator -/

/-- Claim C1 (counterexample).  The claim omits the frame-count limit
check: a file whose recounted rows equal the declared count and whose
declared frame time equals the configured `1/frameRate` exactly is still
rejected when the declared count exceeds a finite `maxFrames` (here 3 > 2),
as the spec's own scenario 3 requires. -/
theorem validate_rejects_consistent_file_over_limit :
    recountFrames goodContent = some 3 ∧
    parseHeader goodContent = some (3, mkRat 1 25) ∧
    Limits.frameTime ⟨2, mkRat 25 1⟩ = mkRat 1 25 ∧
    validate goodContent ⟨2, mkRat 25 1⟩ ≠ .ok :=
  ⟨by decide, by decide, by decide, by decide⟩

/-- Claim C1 (amended): for every file (after UTF-8 decode) whose parsed
header declares a frame count equal to the recounted motion-data rows and a
frame time equal to the configured `1/frameRate` exactly, *and* whose
declared frame count does not exceed the configured `maxFrames` (or
`maxFrames` is the unlimited sentinel `-1`), `validate` returns Ok. -/
theorem validate_ok_of_consistent_file (content : String) (limits : Limits)
    (n : Int) (t : ℚ)
    (hh : parseHeader content = some (n, t))
    (hc : recountFrames content = some n)
    (ht : t = limits.frameTime)
    (hm : limits.maxFrames = -1 ∨ n ≤ limits.maxFrames) :
    validate content limits = .ok := by
  rcases hm with hm | hm
  · simp [validate, hh, hc, ht, hm]
  · have h2 : ¬n > limits.maxFrames := not_lt.mpr hm
    simp [validate, hh, hc, ht, h2]

/-- Witness for C1 (amended) at `goodContent` with 25 fps and no limit. -/
theorem validate_ok_of_consistent_file_witness :
    validate goodContent baseLimits = .ok :=
  validate_ok_of_consistent_file goodContent baseLimits 3 (mkRat 1 25)
    (by decide) (by decide) (by decide) (Or.inl (by decide))

/-- Claim C5 (counterexample).  The spec's scenario-1 file (`Frames: 3`,
`Frame Time: 0.04166667`, 3 motion rows) does *not* pass validation at a
configured 24 fps: under the exact-equality check, the declared
`0.04166667` differs from the derived `1/24`.  (The two values also round
to distinct IEEE-754 doubles, so Python's `!=` decides this the same
way.) -/
theorem scenario1_file_rejected :
    validate content24 ⟨-1, mkRat 24 1⟩ ≠ .ok ∧
    recountFrames content24 = some 3 ∧
    parseHeader content24 = some (3, mkRat 4166667 100000000) :=
  ⟨by decide, by decide, by decide⟩

/-- Claim C5 (amended): with 24 fps configured, the scenario-1 file fails
validation with the frame-time-mismatch failure, because `0.04166667` is
not exactly `1/24`; its frame-count checks do pass (the failure is raised
at the frame-time check, after the count checks succeeded). -/
theorem scenario1_frame_time_mismatch :
    validate content24 ⟨-1, mkRat 24 1⟩ =
      .fail (.frameTimeMismatch (mkRat 4166667 100000000) (mkRat 1 24)) ∧
    mkRat 4166667 100000000 ≠ mkRat 1 24 :=
  ⟨by decide, by decide⟩

/-- Claim C6: a UTF-8 file containing no line that strips to `"MOTION"`
fails validation with a typed failure (the spec-modelled structural parse
cannot find the MOTION header fields), not an untyped crash. -/
theorem validate_fails_without_motion_marker (content : String) (limits : Limits)
    (h : ∀ l ∈ pySplitLines content, pyStrip l ≠ "MOTION") :
    validate content limits = .fail .headerMissing := by
  have hd : (pySplitLines content).dropWhile (fun l => pyStrip l ≠ "MOTION") = [] :=
    List.dropWhile_eq_nil_iff.mpr (fun x hx => by simp [h x hx])
  have hms : motionSection content = [] := by
    unfold motionSection
    rw [hd]
  have hp : parseHeader content = none := by
    unfold parseHeader
    rw [hms]
    rfl
  simp [validate, hp]

/-- Witness for C6 at a concrete file with no MOTION marker. -/
theorem validate_fails_without_motion_marker_witness :
    validate noMotionContent baseLimits = .fail .headerMissing :=
  validate_fails_without_motion_marker noMotionContent baseLimits (by decide)

/-- Claim C7: whenever the recounted motion-data rows differ from the
declared frame count, validation fails with the frame-count-mismatch
failure — for every configuration, i.e. regardless of whether the limit
and frame-time checks would pass — and its message embeds both the
recounted value and the declared value. -/
theorem frame_count_mismatch_raised (content : String) (limits : Limits)
    (n : Int) (t : ℚ)
    (hh : parseHeader content = some (n, t))
    (hc : recountFrames content ≠ some n) :
    validate content limits = .fail (.frameCountMismatch (recountFrames content) n) ∧
    errMessage (.frameCountMismatch (recountFrames content) n) =
      "The number of rows with motion data (" ++ pyOptIntStr (recountFrames content) ++
        ") does not match the Frames field (" ++ toString n ++ ")" := by
  refine ⟨?_, rfl⟩
  simp [validate, hh, hc]

/-- Witness for C7: spec scenario 2 (3 declared, 2 recounted); the message
references both "2" and "3". -/
theorem frame_count_mismatch_raised_witness :
    validate badCountContent baseLimits = .fail (.frameCountMismatch (some 2) 3) ∧
    errMessage (.frameCountMismatch (some 2) 3) =
      "The number of rows with motion data (2) does not match the Frames field (3)" := by
  have h := frame_count_mismatch_raised badCountContent baseLimits 3 (mkRat 1 25)
    (by decide) (by decide)
  have hr : recountFrames badCountContent = some 2 := by decide
  rw [hr] at h
  exact ⟨h.1, by decide⟩

/-- Claim C8: (a) with a finite configured `maxFrames` (any value other
than the `-1` sentinel), a declared frame count over the limit fails with
the too-many-frames failure citing the declared count and the limit, even
when the recounted rows match; (b) with `maxFrames = -1` (unlimited), no
file is ever rejected with the too-many-frames failure. -/
theorem max_frames_limit_behavior (content : String) (limits : Limits) :
    (∀ (n : Int) (t : ℚ), parseHeader content = some (n, t) →
      recountFrames content = some n →
      limits.maxFrames ≠ -1 → n > limits.maxFrames →
      validate content limits = .fail (.tooManyFrames n limits.maxFrames) ∧
      errMessage (.tooManyFrames n limits.maxFrames) =
        "The supplied number of frames (" ++ toString n ++ ") is bigger than " ++
          toString limits.maxFrames) ∧
    (limits.maxFrames = -1 →
      ∀ a b : Int, validate content limits ≠ .fail (.tooManyFrames a b)) := by
  constructor
  · intro n t hh hc hm hgt
    refine ⟨?_, rfl⟩
    simp [validate, hh, hc, hm, hgt]
  · intro hm a b
    unfold validate
    cases hh : parseHeader content with
    | none => simp
    | some p =>
      obtain ⟨n, t⟩ := p
      dsimp only
      split
      · simp
      · split
        · rename_i hcond
          exact absurd hm hcond.1
        · split
          · simp
          · simp

/-- Witness for C8: scenario 3 (limit 2, declared 3, both counts 3) fails
citing 3 and 2; the same file under the unlimited sentinel is not rejected
for its frame count. -/
theorem max_frames_limit_behavior_witness :
    validate goodContent ⟨2, mkRat 25 1⟩ = .fail (.tooManyFrames 3 2) ∧
    errMessage (.tooManyFrames 3 2) =
      "The supplied number of frames (3) is bigger than 2" ∧
    validate goodContent baseLimits ≠ .fail (.tooManyFrames 3 2) := by
  refine ⟨?_, by decide, ?_⟩
  · exact ((max_frames_limit_behavior goodContent ⟨2, mkRat 25 1⟩).1 3 (mkRat 1 25)
      (by decide) (by decide) (by decide) (by decide)).1
  · exact (max_frames_limit_behavior goodContent baseLimits).2 (by decide) 3 2

/-! ## Claims about the render task -/

/-- Claim C2: the task never spawns the renderer subprocess unless
validation succeeded — whenever `validate` fails, the task ends in the
typed failure carrying the validation message and its trace contains no
spawn event, whatever the subprocess would have printed. -/
theorem no_spawn_on_validation_failure (env : Env) (uri : String) (proc : ProcRun)
    (e : ValidationError)
    (h : validate (env.fetchBody uri) env.limits = .fail e) :
    (render env uri proc).outcome = .taskFailure (errMessage e) ∧
    Event.spawned ∉ (render env uri proc).trace := by
  simp [render, h]

/-- Witness for C2 at the scenario-2 file (frame-count mismatch). -/
theorem no_spawn_on_validation_failure_witness :
    (render envBadCount "/f.bvh" ⟨["output_file /tmp/x.mp4"], 0, ""⟩).outcome =
      .taskFailure (errMessage (.frameCountMismatch (some 2) 3)) ∧
    Event.spawned ∉ (render envBadCount "/f.bvh" ⟨["output_file /tmp/x.mp4"], 0, ""⟩).trace :=
  no_spawn_on_validation_failure envBadCount "/f.bvh" ⟨["output_file /tmp/x.mp4"], 0, ""⟩
    (.frameCountMismatch (some 2) 3) (by decide)

/-- Claim C3 (counterexample).  A run whose subprocess exits with code 0
and whose stdout closes without any `output_file` line still raises the
typed failure carrying its stderr: the claim's "when the exit code is
zero, no failure is raised" is false on the code, because
`process.returncode` was never collected by a `wait()`/`poll()` and the
check `process.returncode != 0` compares `None != 0`, which is true. -/
theorem zero_exit_still_raises :
    (⟨["garbage"], 0, "boom"⟩ : ProcRun).exitCode = 0 ∧
    classifyLine "garbage" = .ignored ∧
    (render envOk "/f.bvh" ⟨["garbage"], 0, "boom"⟩).outcome = .taskFailure "boom" :=
  ⟨by decide, by decide, by decide⟩

/-- Claim C3 (amended): whenever the stdout stream closes without any
`output_file` line having been emitted (and no line raised), the task
raises the typed failure carrying the subprocess's full captured stderr
text, for *every* exit code — the recorded return code is still unset at
the check, and Python's `None != 0` is true. -/
theorem stream_end_always_raises_stderr (env : Env) (uri : String) (proc : ProcRun)
    (hok : validate (env.fetchBody uri) env.limits = .ok)
    (hcont : ∀ x ∈ proc.stdoutLines, contLine x = true) :
    (render env uri proc).outcome = .taskFailure proc.stderrText := by
  have hex := runLoop_exhausted proc.stdoutLines hcont (none, none)
  simp [render, hok, hex, recordedReturncode]

/-- Witness for C3 (amended), applied at both a zero and a non-zero exit
status for the same stdout/stderr observation. -/
theorem stream_end_always_raises_stderr_witness :
    (render envOk "/f.bvh" ⟨["garbage", "Append frame 5"], 1, "stderr-text"⟩).outcome =
      .taskFailure "stderr-text" ∧
    (render envOk "/f.bvh" ⟨["garbage", "Append frame 5"], 0, "stderr-text"⟩).outcome =
      .taskFailure "stderr-text" :=
  ⟨stream_end_always_raises_stderr envOk "/f.bvh" ⟨["garbage", "Append frame 5"], 1, "stderr-text"⟩
      (by decide) (by decide),
    stream_end_always_raises_stderr envOk "/f.bvh" ⟨["garbage", "Append frame 5"], 0, "stderr-text"⟩
      (by decide) (by decide)⟩

/-- Claim C4 (counterexample).  After the subprocess prints
`total_frames 10` and then `Append frame 0`, both values have been set
(`total = 10`, `current_frame = 0`), yet no Rendering update is emitted:
`if total and current_frame:` uses Python truthiness and `0` is falsy, so
the claim's "each time both are set ... an update is emitted" is false. -/
theorem both_set_zero_frame_no_update :
    runLoop (none, none) ["total_frames 10", "Append frame 0"] =
      ⟨[], .exhausted (some 10, some 0)⟩ ∧
    renderingPairs
        (render envOk "/f.bvh" ⟨["total_frames 10", "Append frame 0"], 0, "e"⟩).trace = [] :=
  ⟨by decide, by decide⟩

/-- Claim C4 (amended): the Rendering progress updates observed during a
render are exactly the due updates of the spec-side observation function:
after each processed stdout line, an update is emitted if and only if both
`total` and `current_frame` are set *and nonzero* (Python truthiness), and
it carries exactly the most recently parsed `(currentFrame, totalFrames)`
pair; in particular no update is emitted before both have been observed
with nonzero values. -/
theorem rendering_updates_follow_truthiness (env : Env) (uri : String) (proc : ProcRun)
    (hok : validate (env.fetchBody uri) env.limits = .ok) :
    renderingPairs (render env uri proc).trace = dueUpdates (none, none) proc.stdoutLines := by
  have hpairs := runLoop_renderingPairs proc.stdoutLines (none, none)
  rw [← hpairs]
  simp only [render, hok]
  split <;>
    simp_all [renderingPairs, List.filterMap_append, List.filterMap_cons]

/-- Witness for C4 (amended): a concrete run where the due updates are
exactly one pair `(1, 10)`. -/
theorem rendering_updates_follow_truthiness_witness :
    renderingPairs
        (render envOk "/f.bvh" ⟨["total_frames 10", "Append frame 1"], 0, "e"⟩).trace =
      dueUpdates (none, none) ["total_frames 10", "Append frame 1"] ∧
    dueUpdates (none, none) ["total_frames 10", "Append frame 1"] = [(1, 10)] :=
  ⟨rendering_updates_follow_truthiness envOk "/f.bvh"
      ⟨["total_frames 10", "Append frame 1"], 0, "e"⟩ (by decide),
    by decide⟩

/-- Claim C9: on the first stdout line recognized as an `output_file` line
(after any prefix of lines that neither return nor raise), the task's
result is the upload response body for the named artifact; the trace
contains the upload of multipart field `"file"` with the path's base
filename to the upload endpoint under the same authorization header used
for the fetch; and no subsequent stdout line is processed — the entire
observable run is unchanged under any replacement of the remaining lines
(and of the exit status and stderr). -/
theorem output_file_short_circuits (env : Env) (uri : String)
    (pre post post2 : List String) (l path : String) (ec ec2 : Int) (sd sd2 : String)
    (hok : validate (env.fetchBody uri) env.limits = .ok)
    (hpre : ∀ x ∈ pre, contLine x = true)
    (hl : classifyLine l = .outputFile path) :
    (render env uri ⟨pre ++ l :: post, ec, sd⟩).outcome = .success (env.uploadBody path) ∧
    Event.uploaded (env.apiServer ++ "/upload_video") "file" (pyBasename path) env.auth ∈
      (render env uri ⟨pre ++ l :: post, ec, sd⟩).trace ∧
    Event.fetched (env.apiServer ++ uri) env.auth ∈
      (render env uri ⟨pre ++ l :: post, ec, sd⟩).trace ∧
    render env uri ⟨pre ++ l :: post, ec, sd⟩ = render env uri ⟨pre ++ l :: post2, ec2, sd2⟩ := by
  have hrun : ∀ post' : List String, runLoop (none, none) (pre ++ l :: post') =
      ⟨(runLoop (none, none) pre).events, .returned path⟩ := by
    intro post'
    rw [runLoop_append_cont pre hpre, runLoop_cons_output _ _ _ _ hl]
    simp
  simp only [render, hok]
  rw [hrun post, hrun post2]
  refine ⟨rfl, ?_, ?_, rfl⟩ <;> simp

/-- Witness for C9 at a concrete subprocess transcript. -/
theorem output_file_short_circuits_witness :
    (render envOk "/f.bvh" ⟨["noise", "output_file /tmp/out.mp4", "later"], 0, "e"⟩).outcome =
      .success "upload-response" ∧
    Event.uploaded "http://api/upload_video" "file" "out.mp4" "Bearer tok" ∈
      (render envOk "/f.bvh" ⟨["noise", "output_file /tmp/out.mp4", "later"], 0, "e"⟩).trace ∧
    render envOk "/f.bvh" ⟨["noise", "output_file /tmp/out.mp4", "later"], 0, "e"⟩ =
      render envOk "/f.bvh" ⟨["noise", "output_file /tmp/out.mp4"], 1, "other"⟩ := by
  have h := output_file_short_circuits envOk "/f.bvh" ["noise"] ["later"] []
    "output_file /tmp/out.mp4" "/tmp/out.mp4" 0 1 "e" "other" (by decide) (by decide) (by decide)
  exact ⟨h.1, h.2.1, h.2.2.2⟩

/-- A stdout line whose processing raises (any line classified `errored`)
makes the task end in the untyped-error outcome with that message,
whatever lines follow. -/
theorem render_errored_line (env : Env) (uri : String) (pre post : List String)
    (l m : String) (ec : Int) (sd : String)
    (hok : validate (env.fetchBody uri) env.limits = .ok)
    (hpre : ∀ x ∈ pre, contLine x = true)
    (hl : classifyLine l = .errored m) :
    (render env uri ⟨pre ++ l :: post, ec, sd⟩).outcome = .untypedError m := by
  have hrun : runLoop (none, none) (pre ++ l :: post) =
      ⟨(runLoop (none, none) pre).events, .errored m⟩ := by
    rw [runLoop_append_cont pre hpre, runLoop_cons_error _ _ _ _ hl]
    simp
  simp only [render, hok]
  rw [hrun]

/-- Claim C10: a stdout line that begins with a recognized prefix but has a
malformed payload — a `total_frames ` line that does not split (on single
spaces) into two tokens whose second parses as a float literal, an
`Append frame ` line whose last space-separated token is not an integer
literal, or an `output_file`-prefixed line that does not split into exactly
two tokens (e.g. a path containing a space) — raises a `ValueError` that
escapes the task unhandled as an untyped error, rather than being ignored
or raised as the typed task failure. -/
theorem malformed_line_untyped_error (env : Env) (uri : String)
    (pre post : List String) (l : String) (ec : Int) (sd : String)
    (hok : validate (env.fetchBody uri) env.limits = .ok)
    (hpre : ∀ x ∈ pre, contLine x = true)
    (hbad :
      (pyStartsWith (pyStrip l) "total_frames " = true ∧
        ∀ a t : String, pySplitSpace (pyStrip l) = [a, t] → pyParseFloat t = none) ∨
      (pyStartsWith (pyStrip l) "Append frame " = true ∧
        pyStartsWith (pyStrip l) "total_frames " = false ∧
        pyParseInt ((pySplitSpace (pyStrip l)).getLastD "") = none) ∨
      (pyStartsWith (pyStrip l) "output_file" = true ∧
        pyStartsWith (pyStrip l) "total_frames " = false ∧
        pyStartsWith (pyStrip l) "Append frame " = false ∧
        ∀ a b : String, pySplitSpace (pyStrip l) ≠ [a, b])) :
    ∃ m, classifyLine l = .errored m ∧
      (render env uri ⟨pre ++ l :: post, ec, sd⟩).outcome = .untypedError m := by
  have herr : ∃ m, classifyLine l = .errored m := by
    rcases hbad with ⟨h1, h2⟩ | ⟨h1, h0, h2⟩ | ⟨h1, h0, h3, h2⟩
    · rcases hsp : pySplitSpace (pyStrip l) with _ | ⟨a, _ | ⟨t, _ | ⟨x, xs⟩⟩⟩
      · exact ⟨"ValueError: values to unpack", by simp [classifyLine, h1, hsp]⟩
      · exact ⟨"ValueError: values to unpack", by simp [classifyLine, h1, hsp]⟩
      · exact ⟨"ValueError: could not convert string to float: " ++ t,
          by simp [classifyLine, h1, hsp, h2 a t hsp]⟩
      · exact ⟨"ValueError: values to unpack", by simp [classifyLine, h1, hsp]⟩
    · refine ⟨"ValueError: invalid literal for int() with base 10: " ++
        (pySplitSpace (pyStrip l)).getLastD "", ?_⟩
      have h2a : pyParseInt ((pySplitSpace (pyStrip l)).getLast?.getD "") = none := by
        rw [← List.getLastD_eq_getLast?]
        exact h2
      simp [classifyLine, h0, h1, h2a]
    · rcases hsp : pySplitSpace (pyStrip l) with _ | ⟨a, _ | ⟨t, _ | ⟨x, xs⟩⟩⟩
      · exact ⟨"ValueError: values to unpack", by simp [classifyLine, h0, h3, h1, hsp]⟩
      · exact ⟨"ValueError: values to unpack", by simp [classifyLine, h0, h3, h1, hsp]⟩
      · exact absurd hsp (h2 a t)
      · exact ⟨"ValueError: values to unpack", by simp [classifyLine, h0, h3, h1, hsp]⟩
  obtain ⟨m, hm⟩ := herr
  exact ⟨m, hm, render_errored_line env uri pre post l m ec sd hok hpre hm⟩

/-- Witness for C10 at a `total_frames` line with a non-numeric payload. -/
theorem malformed_line_untyped_error_witness :
    ∃ m, classifyLine "total_frames ten" = .errored m ∧
      (render envOk "/f.bvh" ⟨["junk", "total_frames ten", "x"], 0, "sd"⟩).outcome =
        .untypedError m :=
  malformed_line_untyped_error envOk "/f.bvh" ["junk"] ["x"] "total_frames ten" 0 "sd"
    (by decide) (by decide)
    (Or.inl ⟨by decide, by
      intro a t h
      rw [show pySplitSpace (pyStrip "total_frames ten") = ["total_frames", "ten"] by decide] at h
      injection h with h1 h2
      injection h2 with h3 h4
      rw [← h3]
      decide⟩)

end Genea
